import Mathlib

/-!
Shallow embedding of the Active Directory join/leave lifecycle controller of
this repository (`src/middlewared/middlewared/plugins/activedirectory.py`).

Python methods are modelled as Lean functions.  Side effects (datastore
writes, external `net` commands, service restarts, ...) are recorded in an
event trace, and Python exceptions as `Except` values.  External
collaborators (middleware calls, command execution) are modelled by
environment records whose fields fix the outcome of each call site; the
functions themselves are transcribed from the source.
-/

namespace AD

/-- Lifecycle states, `DSStatus` in
`src/middlewared/middlewared/utils/directoryservices/constants.py`. -/
inductive DSStatus
  | DISABLED
  | FAULTED
  | LEAVING
  | JOINING
  | HEALTHY
deriving DecidableEq, Repr

/-- Name of a `DSStatus` member, as used in f-strings in the source. -/
def DSStatus.nameStr : DSStatus → String
  | .DISABLED => "DISABLED"
  | .FAULTED => "FAULTED"
  | .LEAVING => "LEAVING"
  | .JOINING => "JOINING"
  | .HEALTHY => "HEALTHY"

/-- Membership probe result, `class neterr(enum.Enum)` in the source. -/
inductive neterr
  | JOINED
  | NOTJOINED
  | FAULT
deriving DecidableEq, Repr

/-- Name of a `neterr` member (`ret.name` in the source). -/
def neterr.nameStr : neterr → String
  | .JOINED => "JOINED"
  | .NOTJOINED => "NOTJOINED"
  | .FAULT => "FAULT"

/-- Boolean list-prefix test on characters (Python substring machinery). -/
def isPrefixList : List Char → List Char → Bool
  | [], _ => true
  | _ :: _, [] => false
  | a :: as, b :: bs => a == b && isPrefixList as bs

/-- Helper for `substrOf`: does `nee` occur in the haystack list? -/
def substrAux (nee : List Char) : List Char → Bool
  | [] => isPrefixList nee []
  | h :: t => isPrefixList nee (h :: t) || substrAux nee t

/-- Python `nee in hay` on strings: substring containment. -/
def substrOf (hay nee : String) : Bool := substrAux nee.data hay.data

/-- Python `s.upper()` (structurally recursive form of `String.toUpper`). -/
def strUpper (s : String) : String := ⟨s.data.map Char.toUpper⟩

/-- The fixed list `errors_to_rejoin` in `neterr.to_status`. -/
def errors_to_rejoin : List String :=
  ["0xfffffff6",
   "LDAP_INVALID_CREDENTIALS",
   "The name provided is not a properly formed account name",
   "The attempted logon is invalid."]

/-- Loop body of `neterr.to_status`: first match wins, fall through to FAULT. -/
def toStatusAux : List String → String → neterr
  | [], _ => .FAULT
  | e :: rest, s => if substrOf s e then .NOTJOINED else toStatusAux rest s

/-- `neterr.to_status(errstr)` from the source. -/
def to_status (errstr : String) : neterr := toStatusAux errors_to_rejoin errstr

/-- Kerberos ticket-acquisition error codes matched in
`ActiveDirectoryService.do_update` (the `match e.krb5_code` statement);
`otherCode` stands for every other member of the `KRB5ErrCode` enumeration,
all of which fall to the catch-all arm. -/
inductive KRB5ErrCode
  | KRB5_LIBOS_CANTREADPWD
  | KRB5KDC_ERR_CLIENT_REVOKED
  | KRB5_CC_NOTFOUND
  | KRB5KDC_ERR_POLICY
  | KRB5KDC_ERR_C_PRINCIPAL_UNKNOWN
  | KRB5KRB_AP_ERR_SKEW
  | KRB5KDC_ERR_PREAUTH_FAILED
  | otherCode
deriving DecidableEq, Repr

/-- The `KRB5Error` handler of `do_update` (first-time-enable pre-flight),
transcribed as a pure classification function.  Arguments: `kp` is the
truthiness of `new['kerberos_principal']`, `bindname` is `new['bindname']`,
`estr` is `str(e)`, `choices` is the result of
`kerberos.keytab.kerberos_principal_choices`.  Returns the `(key, msg)` pair
passed to `ValidationError`. -/
def classify (kp : Bool) (bindname : String) (estr : String)
    (choices : List String) (code : KRB5ErrCode) : String × String :=
  let key := if kp then "activedirectory.kerberos_principal" else "activedirectory.bindpw"
  match code with
  | .KRB5_LIBOS_CANTREADPWD =>
      if key = "activedirectory.kerberos_principal" then
        (key, "Kerberos keytab is no longer valid.")
      else
        (key, "Active Directory account password for user " ++ bindname ++ " is expired.")
  | .KRB5KDC_ERR_CLIENT_REVOKED =>
      (key, "Active Directory account is locked.")
  | .KRB5_CC_NOTFOUND =>
      if key = "activedirectory.kerberos_principal" then
        (key, "System keytab lacks an entry for the specified kerberos principal. " ++
          "Please select a valid kerberos principal from available choices: " ++
          String.intercalate ", " choices)
      else
        (key, estr)
  | .KRB5KDC_ERR_POLICY =>
      (key, "Active Directory security policy rejected request to obtain kerberos ticket. " ++
        "This may occur if the bind account has been configured to deny interactive " ++
        "logons or require two-factor authentication. Depending on organizational " ++
        "security policies, one may be required to pre-generate a kerberos keytab " ++
        "and upload to TrueNAS server for use during join process.")
  | .KRB5KDC_ERR_C_PRINCIPAL_UNKNOWN =>
      let key2 := if key = "activedirectory.bindpw" then "activedirectory.bindname" else key
      (key2, "Client\x27s credentials were not found on remote domain controller. The most " ++
        "common reasons for the domain controller to return this response is due to a " ++
        "typo in the service account name or the service or the computer account being " ++
        "deleted from Active Directory.")
  | .KRB5KRB_AP_ERR_SKEW =>
      ("activedirectory.domainname",
       "The time offset between the TrueNAS server and the active directory domain " ++
       "controller exceeds the maximum value permitted by the Active Directory " ++
       "configuration. This may occur if NTP is improperly configured on the " ++
       "TrueNAS server or if the hardware clock on the TrueNAS server is configured " ++
       "for a local timezone instead of UTC.")
  | .KRB5KDC_ERR_PREAUTH_FAILED =>
      if kp then
        (key, "Kerberos principal credentials are no longer valid. Rejoining active directory " ++
          "may be required.")
      else
        (key, "Preauthentication failed. This typically indicates an incorrect bind password.")
  | .otherCode =>
      (key, estr)

/-- Result of an external command execution (`middlewared.utils.run`). -/
structure RunResult where
  returncode : Nat
  stdout : String
  stderr : String
deriving DecidableEq, Repr

/-- Events of the `cache_flush_retry` model: the i-th run of the command,
and `idmap.gencache.flush`. -/
inductive CEv
  | runCmd (i : Nat)
  | flush
deriving DecidableEq, Repr

/-- `cache_flush_retry(cmd, retry=False)`: the recursive call instance of
`ActiveDirectoryService.cache_flush_retry` with `retry` false.  `runs i` is
the result of the i-th execution of `cmd`; `i` counts executions performed
so far. -/
def cache_flush_retry_noretry (runs : Nat → RunResult) (i : Nat) :
    List CEv × RunResult :=
  ([CEv.runCmd i], runs i)

/-- `cache_flush_retry(cmd)` with the default `retry=True`: run the command;
on non-zero exit flush the gencache once and retry exactly once with
`retry=False`. -/
def cache_flush_retry (runs : Nat → RunResult) (i : Nat) :
    List CEv × RunResult :=
  let rv := runs i
  if rv.returncode ≠ 0 then
    let second := cache_flush_retry_noretry runs (i + 1)
    ([CEv.runCmd i, CEv.flush] ++ second.1, second.2)
  else
    ([CEv.runCmd i], rv)

/-- Values stored under a key of the configuration dictionary. -/
inductive DVal
  | b (x : Bool)
  | n (x : Nat)
  | s (x : String)
  | optS (x : Option String)
  | optN (x : Option Nat)
  | ls (x : List String)
deriving DecidableEq, Repr

/-- `ActiveDirectoryService.ad_compress` on the dictionary representation:
drop the keys `netbiosname`, `netbiosname_b`, `netbiosalias`, `bindpw` and
upper-case a truthy `nss_info` value. -/
def ad_compress (ad : List (String × DVal)) : List (String × DVal) :=
  let dropped := ad.filter fun kv =>
    ¬ (kv.1 = "netbiosname" ∨ kv.1 = "netbiosname_b" ∨
       kv.1 = "netbiosalias" ∨ kv.1 = "bindpw")
  dropped.map fun kv =>
    if kv.1 = "nss_info" then
      match kv.2 with
      | DVal.s v => if v ≠ "" then (kv.1, DVal.s (strUpper v)) else kv
      | DVal.optS (some v) => if v ≠ "" then (kv.1, DVal.optS (some (strUpper v))) else kv
      | _ => kv
    else kv

/-- Python exceptions appearing in the modelled code paths.  `exc tag` is an
arbitrary exception injected by an environment field (middleware calls can
raise anything). -/
inductive Err
  | callErr (msg : String) (eno : Nat)
  | valErr (field : String) (msg : String)
  | valErrs (errs : List (String × String))
  | matchNotFound
  | exc (tag : String)
deriving DecidableEq, Repr

/-- `net ads` subcommands executed through `run` in the source. -/
inductive Cmd
  | testjoin
  | join
  | leave
deriving DecidableEq, Repr

/-- Observable side effects recorded while a modelled method executes.
`dsWrite p` is a `datastore.update` with payload `p`; `runNet c` is the
execution of a `net ads` command; `callSvc n` is a side-effecting middleware
call (config regeneration, service restart, DNS registration, ...);
`smbUpdate` is the `smb.update` performed by `update_netbios_data`. -/
inductive Ev
  | setState (s : DSStatus)
  | dsWrite (p : List (String × DVal))
  | dsInsert (table : String)
  | dsDelete (table : String)
  | runNet (c : Cmd)
  | callSvc (n : String)
  | unlinkFile (path : String)
  | smbUpdate
deriving DecidableEq, Repr

/-- Result of running a modelled method: the trace of emitted events paired
with either a return value or a raised exception. -/
def Res (α : Type) : Type := List Ev × Except Err α

/-- Sequencing: an exception short-circuits, otherwise traces concatenate. -/
def Res.bind {α β : Type} (x : Res α) (f : α → Res β) : Res β :=
  match x with
  | (t, Except.error e) => (t, Except.error e)
  | (t, Except.ok a) => (t ++ (f a).1, (f a).2)

instance : Monad Res where
  pure a := ([], Except.ok a)
  bind := Res.bind

/-- Emit one event. -/
def emit (e : Ev) : Res Unit := ([e], Except.ok ())

/-- Emit several events. -/
def emits (es : List Ev) : Res Unit := (es, Except.ok ())

/-- Raise an exception. -/
def fail {α : Type} (e : Err) : Res α := ([], Except.error e)

/-- Perform an external call whose outcome the environment fixes: `none`
means success, `some e` means the call raised `e`. -/
def req (o : Option Err) : Res Unit :=
  match o with
  | none => ([], Except.ok ())
  | some e => ([], Except.error e)

/-- The persisted Active Directory configuration as returned by
`self.config()` (datastore row in `ActiveDirectoryModel` column order,
extended by `ad_extend` with the SMB netbios fields).  `bindpw` is not a
column and is absent from this record; `kerberos_principal` uses `""` for
the Python falsy values. -/
structure Config where
  id : Nat
  domainname : String
  bindname : String
  verbose_logging : Bool
  allow_trusted_doms : Bool
  use_default_domain : Bool
  allow_dns_updates : Bool
  disable_freenas_cache : Bool
  restrict_pam : Bool
  site : Option String
  timeout : Nat
  dns_timeout : Nat
  nss_info : Option String
  enable : Bool
  kerberos_realm : Option Nat
  kerberos_principal : String
  createcomputer : String
  netbiosname : String
  netbiosalias : List String
deriving DecidableEq, Repr

/-- The user-supplied update payload of `do_update` (`data`): any subset of
the accepted fields may be present. -/
structure Data where
  domainname : Option String := none
  bindname : Option String := none
  bindpw : Option String := none
  verbose_logging : Option Bool := none
  allow_trusted_doms : Option Bool := none
  use_default_domain : Option Bool := none
  allow_dns_updates : Option Bool := none
  disable_freenas_cache : Option Bool := none
  restrict_pam : Option Bool := none
  site : Option (Option String) := none
  timeout : Option Nat := none
  dns_timeout : Option Nat := none
  nss_info : Option (Option String) := none
  enable : Option Bool := none
  kerberos_realm : Option (Option Nat) := none
  kerberos_principal : Option String := none
  createcomputer : Option String := none
  netbiosname : Option String := none
  netbiosname_b : Option String := none
  netbiosalias : Option (List String) := none
deriving DecidableEq, Repr

/-- `new = old.copy(); new.update(data)` in `do_update`. -/
def mergeCfg (old : Config) (d : Data) : Config where
  id := old.id
  domainname := d.domainname.getD old.domainname
  bindname := d.bindname.getD old.bindname
  verbose_logging := d.verbose_logging.getD old.verbose_logging
  allow_trusted_doms := d.allow_trusted_doms.getD old.allow_trusted_doms
  use_default_domain := d.use_default_domain.getD old.use_default_domain
  allow_dns_updates := d.allow_dns_updates.getD old.allow_dns_updates
  disable_freenas_cache := d.disable_freenas_cache.getD old.disable_freenas_cache
  restrict_pam := d.restrict_pam.getD old.restrict_pam
  site := d.site.getD old.site
  timeout := d.timeout.getD old.timeout
  dns_timeout := d.dns_timeout.getD old.dns_timeout
  nss_info := d.nss_info.getD old.nss_info
  enable := d.enable.getD old.enable
  kerberos_realm := d.kerberos_realm.getD old.kerberos_realm
  kerberos_principal := d.kerberos_principal.getD old.kerberos_principal
  createcomputer := d.createcomputer.getD old.createcomputer
  netbiosname := d.netbiosname.getD old.netbiosname
  netbiosalias := d.netbiosalias.getD old.netbiosalias

/-- The merged record with `new['domainname'] = new['domainname'].upper()`
applied (line right after the merge in `do_update`). -/
def doUpdateNew (old : Config) (d : Data) : Config :=
  let m := mergeCfg old d
  { m with domainname := strUpper m.domainname }

/-- Python truthiness of `new.get('bindpw')`: present and non-empty. -/
def optTruthy (o : Option String) : Bool :=
  match o with
  | some s => s ≠ ""
  | none => false

/-- Key order of the `old` dictionary: `ActiveDirectoryModel` column order
followed by the two keys `ad_extend` adds. -/
def keyOrder : List String :=
  ["id", "domainname", "bindname", "verbose_logging", "allow_trusted_doms",
   "use_default_domain", "allow_dns_updates", "disable_freenas_cache",
   "restrict_pam", "site", "timeout", "dns_timeout", "nss_info", "enable",
   "kerberos_realm", "kerberos_principal", "createcomputer",
   "netbiosname", "netbiosalias"]

/-- The `permitted_keys` list of `do_update`. -/
def permitted_keys : List String :=
  ["verbose_logging", "use_default_domain", "allow_trusted_doms",
   "disable_freenas_cache", "restrict_pam", "timeout", "dns_timeout"]

/-- Dictionary lookup on the configuration record. -/
def Config.getField (c : Config) : String → DVal
  | "id" => DVal.n c.id
  | "domainname" => DVal.s c.domainname
  | "bindname" => DVal.s c.bindname
  | "verbose_logging" => DVal.b c.verbose_logging
  | "allow_trusted_doms" => DVal.b c.allow_trusted_doms
  | "use_default_domain" => DVal.b c.use_default_domain
  | "allow_dns_updates" => DVal.b c.allow_dns_updates
  | "disable_freenas_cache" => DVal.b c.disable_freenas_cache
  | "restrict_pam" => DVal.b c.restrict_pam
  | "site" => DVal.optS c.site
  | "timeout" => DVal.n c.timeout
  | "dns_timeout" => DVal.n c.dns_timeout
  | "nss_info" => DVal.optS c.nss_info
  | "enable" => DVal.b c.enable
  | "kerberos_realm" => DVal.optN c.kerberos_realm
  | "kerberos_principal" => DVal.s c.kerberos_principal
  | "createcomputer" => DVal.s c.createcomputer
  | "netbiosname" => DVal.s c.netbiosname
  | "netbiosalias" => DVal.ls c.netbiosalias
  | _ => DVal.s ""

/-- Dictionary representation of the merged `new` record: the keys of `old`
in order, then the keys only `data` contributed (`bindpw`,
`netbiosname_b`) appended in update order. -/
def Config.toDict (c : Config) (bindpw : Option String)
    (nb_b : Option String) : List (String × DVal) :=
  (keyOrder.map fun k => (k, c.getField k))
  ++ (match bindpw with | some v => [("bindpw", DVal.s v)] | none => [])
  ++ (match nb_b with | some v => [("netbiosname_b", DVal.s v)] | none => [])

/-- Facts gathered by `common_validate` through read-only middleware calls.
`netbios_ours = none` models the `CallError` swallowed by the surrounding
`try`/`except`.  An address carries the `ipaddress` classification flags the
source branches on. -/
structure Addr where
  txt : String
  is_reserved : Bool
  is_loopback : Bool
  is_link_local : Bool
  is_multicast : Bool
deriving DecidableEq, Repr

structure VEnv where
  netbios_ours : Option Bool
  realm_exists : Bool
  pool_count : Nat
  ldap_enabled : Bool
  ha_mode : String
  failover_status : String
  addresses : List Addr
deriving DecidableEq, Repr

/-- Message added when the kerberos realm changes while enabled. -/
def realmAlterMsg : String :=
  "Kerberos realm may not be altered while the AD service is enabled. " ++
  "This is to avoid introducing possible configuration errors that may result " ++
  "in a production outage."

/-- Message added when neither bind credentials nor a keytab are present. -/
def credsRequiredMsg : String :=
  "Bind credentials or kerberos keytab are required to join an AD domain."

/-- Per-address errors of the `allow_dns_updates` loop in
`common_validate`. -/
def dnsAddrErrs (a : Addr) : List (String × String) :=
  (if a.is_reserved then
    [("activedirectory_update.allow_dns_updates",
      a.txt ++ ": automatic DNS update would result in registering a reserved " ++
      "IP address. Users may disable automatic DNS updates and manually " ++
      "configure DNS A and AAAA records as needed for their domain.")] else [])
  ++ (if a.is_loopback then
    [("activedirectory_update.allow_dns_updates",
      a.txt ++ ": automatic DNS update would result in registering a loopback " ++
      "address. Users may disable automatic DNS updates and manually " ++
      "configure DNS A and AAAA records as needed for their domain.")] else [])
  ++ (if a.is_link_local then
    [("activedirectory_update.allow_dns_updates",
      a.txt ++ ": automatic DNS update would result in registering a link-local " ++
      "address. Users may disable automatic DNS updates and manually " ++
      "configure DNS A and AAAA records as needed for their domain.")] else [])
  ++ (if a.is_multicast then
    [("activedirectory_update.allow_dns_updates",
      a.txt ++ ": automatic DNS update would result in registering a multicast " ++
      "address. Users may disable automatic DNS updates and manually " ++
      "configure DNS A and AAAA records as needed for their domain.")] else [])

/-- `ActiveDirectoryService.common_validate(new, old, verrors)`: the list of
`(field, message)` errors accumulated in `verrors`, in accumulation order.
`newBindpw` is the `bindpw` entry of the merged `new` dictionary. -/
def common_validate (newC : Config) (newBindpw : Option String) (old : Config)
    (env : VEnv) : List (String × String) :=
  let s1 := match env.netbios_ours with
    | some false =>
      [("activedirectory_update.netbiosname",
        "NetBIOS name [" ++ newC.netbiosname ++ "] appears to be in use by another computer in Active Directory DNS. " ++
        "Further investigation and DNS corrections will be required prior to using the aforementioned name to " ++
        "join Active Directory.")]
    | _ => []
  let s2 := if newC.kerberos_realm.isSome ∧ newC.kerberos_realm ≠ old.kerberos_realm ∧ ¬ env.realm_exists then
      [("activedirectory_update.kerberos_realm", "Invalid Kerberos realm id. Realm does not exist.")]
    else []
  if ¬ newC.enable then s1 ++ s2 else
  let s4 := if env.pool_count = 0 then
      [("activedirectory_update.enable",
        "Active Directory service may not be enabled before data pool is created.")]
    else []
  let s5 := if env.ldap_enabled then
      [("activedirectory_update.enable",
        "Active Directory service may not be enabled while LDAP service is enabled.")]
    else []
  let s6 := if newC.enable ∧ old.enable ∧ newC.kerberos_realm ≠ old.kerberos_realm then
      [("activedirectory_update.kerberos_realm", realmAlterMsg)]
    else []
  let s7 := if ¬ optTruthy newBindpw ∧ newC.kerberos_principal = "" then
      [("activedirectory_update.bindname", credsRequiredMsg)]
    else []
  let s8 := if optTruthy newBindpw ∧ newC.kerberos_principal ≠ "" then
      [("activedirectory_update.kerberos_principal",
        "Simultaneous keytab and password authentication are not permitted.")]
    else []
  let s9 := if newC.domainname = "" then
      [("activedirectory_update.domainname", "AD domain name is required.")]
    else []
  let base := s1 ++ s2 ++ s4 ++ s5 ++ s6 ++ s7 ++ s8 ++ s9
  if ¬ newC.allow_dns_updates then base
  else if env.ha_mode = "UNIFIED" ∧ env.failover_status ≠ "MASTER" then base
  else
    let s10 := if env.addresses.isEmpty then
        [("activedirectory_update.allow_dns_updates",
          "No server IP addresses passed DNS validation. " ++
          "This may indicate an improperly configured reverse zone. " ++
          "Review middleware log files for details regarding errors encountered.")]
      else []
    base ++ s10 ++ (env.addresses.map dnsAddrErrs).flatten

/-- Run a `Res` computation, reifying the exception outcome (models a
Python `try` block: the handler sees the outcome, the trace is kept). -/
def attempt {α : Type} (x : Res α) : Res (Except Err α) := (x.1, Except.ok x.2)

/-- Scan for the first `:`, accumulating the prefix reversed. -/
def splitOnceAux (acc : List Char) : List Char → Option (List Char × List Char)
  | [] => none
  | c :: rest => if c = ':' then some (acc.reverse, rest) else splitOnceAux (c :: acc) rest

/-- Python `s.split(':', 1)`. -/
def splitOnce (s : String) : List String :=
  match splitOnceAux [] s.data with
  | none => [s]
  | some (a, b) => [String.mk a, String.mk b]

/-- Scan the reversed string, dropping up to and including the first `)`. -/
def rsplitParenAux : List Char → Option (List Char)
  | [] => none
  | c :: rest => if c = ')' then some rest else rsplitParenAux rest

/-- Python `s.rsplit(")", 1)[0]`: everything before the last `)` (the whole
string if there is none). -/
def rsplitParen (s : String) : String :=
  match rsplitParenAux s.data.reverse with
  | none => s
  | some rest => String.mk rest.reverse

/-- `ActiveDirectoryService._parse_join_err(msg)` where
`msg = stdout.split(':', 1)`: always raises; returns the `CallError`
raised.  When the split has fewer than two parts the source raises
`CallError(msg)` on the one-element list, modelled by the raw string. -/
def parse_join_err (stdout : String) : Err :=
  match splitOnce stdout with
  | [_, m1] =>
      if substrOf m1 "Invalid configuration" then
        Err.callErr (rsplitParen m1 ++ ").") 22
      else
        Err.callErr m1 0
  | _ => Err.callErr stdout 0

/-- Domain-controller lookup data used by `__start`
(`lookup_dc` result fields the source reads). -/
structure DcInfo where
  clientSiteName : String
  preWin2kDomain : String
deriving DecidableEq, Repr

/-- Outcomes of every external call site of `__start` (and of the helpers
it invokes).  An `Option Err` field is `none` when the call succeeds and
`some e` when it raises `e`; `Nat` fields are command exit codes. -/
structure StartEnv where
  ha_mode : String
  failover_status : String
  workgroup : String
  current_state : DSStatus
  lookupDc : Option Err
  dcInfo : DcInfo
  realmByName : Option Nat
  newRealmId : Nat
  hasTicket : Bool
  kerberosStart : Option Err
  setKrbServers : Option Err
  tjTicket : Option Err
  testjoinRc : Nat
  testjoinErr : String
  joinTicket : Option Err
  joinRc : Nat
  joinStdout : String
  registerDns : Option Err
  spnWait : Option Err
  storeKeytab : Option Err
  leaveTicket : Option Err
  leaveRc : Nat
  domainInfo2 : Option Err
  getCred : Option Err
  unlinkKrb5 : Option Err
  kinit2 : Option Err
  waitRenewal : Option Err
  setIdmap : Option Err
  secretsBackup : Option Err
  machineKeytabPresent : Bool
  checkMachineKeytab : Option Err
  cacheRefresh : Option Err
  restartDependent : Option Err
deriving DecidableEq, Repr

/-- `f'{ad["netbiosname"].upper()}$@{ad["domainname"]}'`. -/
def machineAcct (ad : Config) : String :=
  strUpper ad.netbiosname ++ "$@" ++ ad.domainname

/-- `ActiveDirectoryService._net_ads_testjoin`: check the ticket, run
`net ads testjoin`; non-zero exit writes a log file and classifies the
stderr text, zero exit is `JOINED`. -/
def net_ads_testjoin (env : StartEnv) : Res neterr := do
  req env.tjTicket
  emit (Ev.runNet Cmd.testjoin)
  if env.testjoinRc ≠ 0 then do
    emit (Ev.callSvc "write_testjoin_log")
    pure (to_status env.testjoinErr)
  else
    pure neterr.JOINED

/-- `ActiveDirectoryService._net_ads_join`: check the ticket, run
`net ads join`; on non-zero exit set FAULTED and raise via
`_parse_join_err`. -/
def net_ads_join (env : StartEnv) : Res Unit := do
  req env.joinTicket
  emit (Ev.runNet Cmd.join)
  if env.joinRc ≠ 0 then do
    emit (Ev.setState DSStatus.FAULTED)
    fail (parse_join_err env.joinStdout)
  else
    pure ()

/-- `ActiveDirectoryService._net_ads_leave`: check the ticket, run
`net ads leave`; non-zero exit is logged and returns `False`, it does not
raise. -/
def net_ads_leave (ticket : Option Err) (rc : Nat) : Res Bool := do
  req ticket
  emit (Ev.runNet Cmd.leave)
  if rc ≠ 0 then pure false else pure true

/-- `ActiveDirectoryService.post_join_setup`: DNS registration, awaited
SPN-provisioning sub-job, keytab persistence — in that order. -/
def post_join_setup (env : StartEnv) : Res Unit := do
  emit (Ev.callSvc "activedirectory.register_dns")
  req env.registerDns
  emit (Ev.callSvc "activedirectory.add_nfs_spn")
  req env.spnWait
  emit (Ev.callSvc "kerberos.keytab.store_ad_keytab")
  req env.storeKeytab

/-- `__start` lines 704-761: persist `enable=True`, regenerate configs,
ensure a kerberos realm row, ensure a ticket, detect the site, reconcile
the workgroup.  Returns the updated local config copy and the workgroup. -/
def startPrep (ad : Config) (env : StartEnv) : Res (Config × String) := do
  emit (Ev.dsWrite [("enable", DVal.b true)])
  emit (Ev.callSvc "etc.generate:smb")
  emit (Ev.callSvc "etc.generate:hostname")
  let ad2 ← (match ad.kerberos_realm with
    | some _ => pure ad
    | none => do
        let rid ← (match env.realmByName with
          | some rid => pure rid
          | none => do
              emit (Ev.dsInsert "directoryservice.kerberosrealm")
              pure env.newRealmId)
        emit (Ev.dsWrite [("kerberos_realm", DVal.n rid)])
        pure { ad with kerberos_realm := some rid })
  (if env.hasTicket then pure () else do
    emit (Ev.callSvc "kerberos.start")
    req env.kerberosStart)
  let ad3 ← (match ad2.site with
    | some _ => pure ad2
    | none => do
        let ad3 := { ad2 with site := some env.dcInfo.clientSiteName }
        (if env.dcInfo.clientSiteName ≠ "Default-First-Site-Name" then do
          emit (Ev.callSvc "activedirectory.set_kerberos_servers")
          req env.setKrbServers
        else pure ())
        pure ad3)
  let wg ← (if env.workgroup ≠ env.dcInfo.preWin2kDomain then do
      emit (Ev.dsWrite [("cifs_srv_workgroup", DVal.s env.dcInfo.preWin2kDomain)])
      pure env.dcInfo.preWin2kDomain
    else pure env.workgroup)
  emit (Ev.callSvc "etc.generate:smb")
  pure (ad3, wg)

/-- The `ret == neterr.JOINED` branch of `__start`: when the stored
principal is falsy, recover the keytab from persisted secrets if the
`AD_MACHINE_ACCOUNT` keytab row is missing, then commit the machine-account
principal. -/
def alreadyJoinedSync (ad : Config) (env : StartEnv) : Res Unit := do
  if ad.kerberos_principal = "" then do
    (if env.machineKeytabPresent then pure () else do
      emit (Ev.callSvc "activedirectory.check_machine_account_keytab")
      req env.checkMachineKeytab)
    emit (Ev.dsWrite [("kerberos_principal", DVal.s (machineAcct ad))])
  else pure ()

/-- The `ret == neterr.NOTJOINED` branch of `__start`: perform the join;
on any exception inside `post_join_setup` run the compensating
`_net_ads_leave` and re-raise the original error (an exception raised by
the compensation itself propagates instead, as in Python); on success
commit the principal, re-kinit with the machine account and configure the
dependent subsystems. -/
def notJoinedSequence (ad : Config) (env : StartEnv) : Res Unit := do
  net_ads_join env
  let r ← attempt (post_join_setup env)
  match r with
  | Except.error e => do
      let _ ← net_ads_leave env.leaveTicket env.leaveRc
      fail e
  | Except.ok _ => do
      emit (Ev.dsWrite [("kerberos_principal", DVal.s (machineAcct ad))])
      req env.domainInfo2
      req env.getCred
      emit (Ev.callSvc "kerberos.kdestroy")
      emit (Ev.unlinkFile "/etc/krb5.conf")
      req env.unlinkKrb5
      emit (Ev.callSvc "kerberos.do_kinit")
      req env.kinit2
      emit (Ev.callSvc "kerberos.wait_for_renewal")
      req env.waitRenewal
      emit (Ev.callSvc "etc.generate:kerberos")
      emit (Ev.callSvc "service.update:cifs")
      emit (Ev.callSvc "idmap.update")
      req env.setIdmap
      emit (Ev.callSvc "activedirectory.set_ntp_servers")
      emit (Ev.callSvc "directoryservices.secrets.backup")
      req env.secretsBackup

/-- `ActiveDirectoryService.__start(job)`.  Returns `none` for the early
passive-controller return, otherwise `ret.name`. -/
def adStart (ad : Config) (env : StartEnv) : Res (Option String) := do
  if env.ha_mode = "UNIFIED" ∧ env.failover_status ≠ "MASTER" then
    pure none
  else do
    (if env.current_state = DSStatus.JOINING ∨ env.current_state = DSStatus.LEAVING then
      fail (Err.callErr ("Active Directory Service has status of [" ++
        env.current_state.nameStr ++ "]. Wait until operation completes.") 16)
    else pure ())
    req env.lookupDc
    emit (Ev.setState DSStatus.JOINING)
    let pr ← startPrep ad env
    let ret ← net_ads_testjoin env
    let ret2 ← (match ret with
      | neterr.NOTJOINED => do
          notJoinedSequence pr.1 env
          pure neterr.JOINED
      | neterr.JOINED => do
          alreadyJoinedSync pr.1 env
          pure neterr.JOINED
      | neterr.FAULT => pure neterr.FAULT)
    emit (Ev.callSvc "etc.generate:smb")
    emit (Ev.callSvc "service.restart:idmap")
    emit (Ev.callSvc "etc.generate:pam")
    emit (Ev.callSvc "etc.generate:nss")
    (if ret2 = neterr.JOINED then do
        emit (Ev.setState DSStatus.HEALTHY)
        emit (Ev.callSvc "directoryservices.cache.refresh_impl")
        req env.cacheRefresh
        emit (Ev.callSvc "directoryservices.restart_dependent_services")
        req env.restartDependent
      else
        emit (Ev.setState DSStatus.FAULTED))
    emit (Ev.callSvc "service.reload:idmap")
    (if ret2 = neterr.JOINED then
        emit (Ev.callSvc "privilege.add_privileges")
      else pure ())
    pure (some ret2.nameStr)

/-- `ActiveDirectoryService.__stop(job, config)`. -/
def ad_stop : Res Unit := do
  emit (Ev.dsWrite [("ad_enable", DVal.b false)])
  emit (Ev.setState DSStatus.LEAVING)
  emit (Ev.callSvc "etc.generate:hostname")
  emit (Ev.callSvc "kerberos.stop")
  emit (Ev.callSvc "service.stop:cifs")
  emit (Ev.callSvc "service.restart:idmap")
  emit (Ev.callSvc "etc.generate:pam")
  emit (Ev.callSvc "etc.generate:nss")
  emit (Ev.setState DSStatus.DISABLED)
  emit (Ev.callSvc "directoryservices.cache.abort_refresh")
  emit (Ev.callSvc "service.start:cifs")
  emit (Ev.setState DSStatus.DISABLED)

/-- Outcome of the credential pre-flight (`validate_credentials` inside
`do_update`): success, a `KRB5Error` with its code, the
GSSAPI bad-name `CallError` carrying `errno.EINVAL`, or any other
`CallError` which is re-raised unchanged. -/
inductive CredOutcome
  | ok
  | krb (code : KRB5ErrCode) (estr : String)
  | gssBadName
  | otherCall (msg : String) (eno : Nat)
deriving DecidableEq, Repr

/-- Outcomes of the external call sites of `do_update` outside
`common_validate` and `__start`. -/
structure UpdEnv where
  venv : VEnv
  mayEnableTrusted : Bool
  failoverLicensed : Bool
  sysdatasetOnBoot : Bool
  domInfo : Option String
  serverTimeOffset : Int
  nameservers : Option String
  cred : CredOutcome
  credChoices : List String
  ngcDomain : String
  hasTicket0 : Bool
  kerberosStart0 : Option Err
  start : StartEnv
deriving DecidableEq, Repr

/-- First key of `old` (in dictionary order) that is outside
`permitted_keys` and whose value changed — the `for entry in old.keys()`
loop of `do_update` when both old and new are enabled. -/
def forbiddenChanged (newC old : Config) : Option String :=
  keyOrder.find? fun k =>
    decide (k ∉ permitted_keys ∧ newC.getField k ≠ old.getField k)

/-- Message of `update_netbios_data`'s rejection while enabled. -/
def netbiosChangedMsg : String :=
  "NetBIOS names may not be changed while service is enabled."

/-- Message of the trusted-domains idmap-backend rejection. -/
def trustedDomsMsg : String :=
  "Configuration for trusted domains requires that the idmap backend " ++
  "be configured to handle these domains. There are two possible strategies to " ++
  "achieve this. The first strategy is to use the AUTORID backend for the domain " ++
  "to which TrueNAS is joined. The second strategy is to separately configure idmap " ++
  "ranges for every domain that has a trust relationship with the domain to which " ++
  "TrueNAS is joined and which has accounts that will be used on the TrueNAS server. " ++
  "NOTE: the topic of how to properly map Windows SIDs to Unix IDs is complex and " ++
  "may require consultation with administrators of other Unix servers in the " ++
  "Active Directory domain to properly coordinate a comprehensive ID mapping strategy."

/-- Message of the clock-offset pre-flight rejection. -/
def offsetMsg : String :=
  "Time offset from Active Directory domain exceeds maximum " ++
  "permitted value. This may indicate an NTP misconfiguration."

/-- Message of the bindpw-while-disabling rejection. -/
def bindpwOnlyEnableMsg : String :=
  "The Active Directory bind password is only used when enabling the active " ++
  "directory service for the first time and is not stored persistently. Therefore it " ++
  "is only valid when enabling the service."

/-- `ActiveDirectoryService.do_update(job, data)`: merge, validate, persist
the compressed record, then start/stop/restart according to the enable
transition.  A failure of `__start` is caught: the state is set DISABLED,
`enable=False` is written back, and the error re-raised. -/
def ad_do_update (old : Config) (d : Data) (env : UpdEnv) : Res Config := do
  let newC := doUpdateNew old d
  (if newC.netbiosname ≠ old.netbiosname ∨ newC.netbiosalias ≠ old.netbiosalias then
     if old.enable then
       fail (Err.valErr "activedirectory_update.netbiosname" netbiosChangedMsg)
     else
       emit Ev.smbUpdate
   else pure ())
  let verrs := common_validate newC d.bindpw old env.venv
  (if verrs ≠ [] then fail (Err.valErrs verrs) else pure ())
  (if newC.enable then do
      (if newC.allow_trusted_doms ∧ ¬ env.mayEnableTrusted then
         fail (Err.valErr "activedirectory.allow_trusted_doms" trustedDomsMsg)
       else pure ())
      (if env.failoverLicensed then
         (if env.sysdatasetOnBoot then
            fail (Err.valErr "activedirectory.enable"
              ("Active Directory may not be enabled while " ++
               "system dataset is on the boot pool"))
          else pure ())
       else pure ())
    else pure ())
  (if newC.enable ∧ old.enable then
     (match forbiddenChanged newC old with
      | some k => fail (Err.valErr ("activedirectory." ++ k)
          "Parameter may not be changed while the Active Directory service is enabled.")
      | none => pure ())
   else if newC.enable ∧ ¬ old.enable then do
     (match env.domInfo with
      | some errmsg => fail (Err.valErr "activedirectory.domainname" errmsg)
      | none => pure ())
     (if 180 < env.serverTimeOffset.natAbs then
        fail (Err.valErr "activedirectory.domainname" offsetMsg)
      else pure ())
     (match env.nameservers with
      | some errmsg => fail (Err.valErr "activedirectory.domainname" errmsg)
      | none => pure ())
     (match env.cred with
      | CredOutcome.ok => pure ()
      | CredOutcome.krb code estr =>
          let km := classify (newC.kerberos_principal ≠ "") newC.bindname estr
            env.credChoices code
          fail (Err.valErr km.1 km.2)
      | CredOutcome.gssBadName =>
          if newC.kerberos_principal ≠ "" then
            fail (Err.valErr "activedirectory.kerberos_principal" "Not a valid principal name")
          else
            fail (Err.valErr "activedirectory.bindname" "Not a valid username")
      | CredOutcome.otherCall m eno => fail (Err.callErr m eno))
   else if ¬ newC.enable ∧ optTruthy d.bindpw then
     fail (Err.valErr "activedirectory.bindpw" bindpwOnlyEnableMsg)
   else pure ())
  emit (Ev.dsWrite (ad_compress (newC.toDict d.bindpw d.netbiosname_b)))
  emit (Ev.callSvc "etc.generate:smb")
  (if ¬ old.enable ∧ newC.enable then do
     (if env.ngcDomain = "" ∨ env.ngcDomain = "local" then
        emit (Ev.callSvc "network.configuration.update")
      else pure ())
     (if env.hasTicket0 then pure () else do
        emit (Ev.callSvc "kerberos.start")
        req env.kerberosStart0)
     let r ← attempt (adStart newC env.start)
     (match r with
      | Except.error e => do
          emit (Ev.setState DSStatus.DISABLED)
          emit (Ev.dsWrite [("enable", DVal.b false)])
          fail e
      | Except.ok _ => pure ())
   else if ¬ newC.enable ∧ old.enable then
     ad_stop
   else if newC.enable ∧ old.enable then
     emit (Ev.callSvc "service.restart:idmap")
   else pure ())
  pure newC

/-- Outcomes of the external call sites of the `leave` job. -/
structure LEnv where
  getCred : Option Err
  kinit : Option Err
  leaveTicket : Option Err
  leaveRc : Nat
  unregisterDns : Option Err
  keytabPresent : Bool
  kerberosStop : Option Err
deriving DecidableEq, Repr

/-- `ActiveDirectoryService.leave(job, data)`: kinit with the supplied
credentials, run the leave, then unconditionally clean up local records;
the secrets backup runs only when the leave command succeeded. -/
def ad_leave (ad : Config) (env : LEnv) : Res Unit := do
  (if ad.domainname = "" then
     fail (Err.callErr "Active Directory domain name present in configuration." 0)
   else pure ())
  emit (Ev.callSvc "privilege.remove_privileges")
  emit (Ev.callSvc "kerberos.get_cred")
  req env.getCred
  emit (Ev.callSvc "kerberos.do_kinit")
  req env.kinit
  let left ← net_ads_leave env.leaveTicket env.leaveRc
  emit (Ev.callSvc "activedirectory.unregister_dns")
  req env.unregisterDns
  (if env.keytabPresent then
     emit (Ev.dsDelete "directoryservice.kerberoskeytab")
   else pure ())
  (match ad.kerberos_realm with
   | some _ => emit (Ev.dsDelete "directoryservice.kerberosrealm")
   | none => pure ())
  (if left then
     emit (Ev.callSvc "directoryservices.secrets.backup")
   else pure ())
  emit (Ev.dsWrite [("enable", DVal.b false), ("site", DVal.optS none),
    ("bindname", DVal.s ""), ("kerberos_realm", DVal.optN none),
    ("kerberos_principal", DVal.s ""), ("domainname", DVal.s "")])
  emit (Ev.setState DSStatus.DISABLED)
  emit (Ev.callSvc "idmap.gencache.flush")
  emit (Ev.unlinkFile "/etc/krb5.keytab")
  emit (Ev.callSvc "kerberos.stop")
  req env.kerberosStop
  emit (Ev.callSvc "etc.generate:pam")
  emit (Ev.callSvc "etc.generate:nss")
  emit (Ev.callSvc "etc.generate:smb")
  emit (Ev.callSvc "service.restart:cifs")
  emit (Ev.callSvc "service.restart:idmap")

/-- Does a datastore-write payload avoid the `bindpw` key? -/
def payloadNoBindpw (p : List (String × DVal)) : Bool :=
  p.all fun kv => kv.1 ≠ "bindpw"

/-- Does every datastore write in the trace avoid the `bindpw` key? -/
def traceNoBindpw (t : List Ev) : Bool :=
  t.all fun e =>
    match e with
    | Ev.dsWrite p => payloadNoBindpw p
    | _ => true

/-- The sequence of `set_state` transitions recorded in a trace. -/
def setStates (t : List Ev) : List DSStatus :=
  t.filterMap fun e =>
    match e with
    | Ev.setState s => some s
    | _ => none

/-- Is the raised error a field-scoped validation error
(`ValidationError` or `ValidationErrors`)? -/
def isValidation : Err → Bool
  | Err.valErr _ _ => true
  | Err.valErrs _ => true
  | _ => false

/-- Events that the realm/ticket/site/workgroup preparation phase of
`__start` may emit: no `net` command, no state transition, no
`enable=False` write, no principal commit, no keytab recovery, no secrets
backup. -/
def prepSafe : Ev → Bool
  | Ev.runNet _ => false
  | Ev.setState _ => false
  | Ev.dsWrite p =>
      decide (p ≠ [("enable", DVal.b false)]) &&
      p.all (fun kv => kv.1 ≠ "kerberos_principal")
  | Ev.callSvc n =>
      decide (n ≠ "activedirectory.check_machine_account_keytab") &&
      decide (n ≠ "directoryservices.secrets.backup")
  | _ => true

/-- A benign domain-controller lookup used by concrete scenarios. -/
def dcW : DcInfo where
  clientSiteName := "Default-First-Site-Name"
  preWin2kDomain := "EX"

/-- A fully healthy `__start` environment used by concrete scenarios. -/
def envW : StartEnv where
  ha_mode := "STANDALONE"
  failover_status := "MASTER"
  workgroup := "EX"
  current_state := DSStatus.DISABLED
  lookupDc := none
  dcInfo := dcW
  realmByName := some 5
  newRealmId := 7
  hasTicket := true
  kerberosStart := none
  setKrbServers := none
  tjTicket := none
  testjoinRc := 0
  testjoinErr := ""
  joinTicket := none
  joinRc := 0
  joinStdout := ""
  registerDns := none
  spnWait := none
  storeKeytab := none
  leaveTicket := none
  leaveRc := 0
  domainInfo2 := none
  getCred := none
  unlinkKrb5 := none
  kinit2 := none
  waitRenewal := none
  setIdmap := none
  secretsBackup := none
  machineKeytabPresent := true
  checkMachineKeytab := none
  cacheRefresh := none
  restartDependent := none

/-- A representative enabled configuration used by concrete scenarios. -/
def cfgW : Config where
  id := 1
  domainname := "EXAMPLE.COM"
  bindname := "admin"
  verbose_logging := false
  allow_trusted_doms := false
  use_default_domain := false
  allow_dns_updates := false
  disable_freenas_cache := false
  restrict_pam := false
  site := some "Default-First-Site-Name"
  timeout := 60
  dns_timeout := 10
  nss_info := none
  enable := true
  kerberos_realm := some 5
  kerberos_principal := ""
  createcomputer := ""
  netbiosname := "nas"
  netbiosalias := []

/-- The start environment of the compensation counterexample: DNS
registration fails inside post-join setup and the ticket check at the head
of the compensating `_net_ads_leave` also raises. -/
def envC1 : StartEnv := {
  envW with
  testjoinRc := 1
  testjoinErr := "LDAP_INVALID_CREDENTIALS"
  registerDns := some (Err.exc "dns_failure")
  leaveTicket := some (Err.exc "ticket_gone") }

/-- The compensation counterexample environment with a succeeding
compensation-path ticket check. -/
def envC1ok : StartEnv := { envC1 with leaveTicket := none }

/-- Benign validation facts used by concrete scenarios. -/
def venvW : VEnv where
  netbios_ours := some true
  realm_exists := true
  pool_count := 1
  ldap_enabled := false
  ha_mode := "STANDALONE"
  failover_status := "MASTER"
  addresses := []

/-- Benign `do_update` environment used by concrete scenarios. -/
def uenvW : UpdEnv where
  venv := venvW
  mayEnableTrusted := true
  failoverLicensed := false
  sysdatasetOnBoot := false
  domInfo := none
  serverTimeOffset := 0
  nameservers := none
  cred := CredOutcome.ok
  credChoices := []
  ngcDomain := "example.com"
  hasTicket0 := true
  kerberosStart0 := none
  start := envW

/-- A disabled stored configuration used by the enable scenarios. -/
def oldW : Config := {
  cfgW with
  enable := false
  kerberos_realm := none
  site := none }

/-- An update payload changing only the bind account name. -/
def dChg : Data := { bindname := some "other" }

/-- A first-time-enable update payload with password credentials. -/
def dW : Data := {
  enable := some true
  bindpw := some "Secret1"
  kerberos_principal := some "" }

/-- A leave environment whose `net ads leave` command fails. -/
def lenvW : LEnv where
  getCred := none
  kinit := none
  leaveTicket := none
  leaveRc := 1
  unregisterDns := none
  keytabPresent := true
  kerberosStop := none

/-- Start environment in which testjoin reports not-joined and the
`net ads join` command itself fails. -/
def envJoinFail : StartEnv := {
  envW with
  testjoinRc := 1
  testjoinErr := "LDAP_INVALID_CREDENTIALS"
  joinRc := 1
  joinStdout := "Failed to join domain: Invalid configuration (wrong realm)" }

/-- `do_update` environment whose start environment carries the join-command
failure. -/
def uenvJF : UpdEnv := { uenvW with start := envJoinFail }

/-! ## Helper lemmas -/

@[simp] theorem bind_eq {α β : Type} (x : Res α) (f : α → Res β) :
    (x >>= f) = Res.bind x f := rfl

@[simp] theorem bind_ok {α β : Type} (t : List Ev) (a : α) (f : α → Res β) :
    Res.bind (t, Except.ok a) f = (t ++ (f a).1, (f a).2) := rfl

@[simp] theorem bind_err {α β : Type} (t : List Ev) (e : Err) (f : α → Res β) :
    Res.bind (t, Except.error e) f = (t, Except.error e) := rfl

@[simp] theorem pure_res {α : Type} (a : α) :
    (pure a : Res α) = ([], Except.ok a) := rfl

@[simp] theorem emit_def (e : Ev) : emit e = ([e], Except.ok ()) := rfl

@[simp] theorem emits_def (es : List Ev) : emits es = (es, Except.ok ()) := rfl

@[simp] theorem req_none : req none = ([], Except.ok ()) := rfl

@[simp] theorem req_some (e : Err) : req (some e) = ([], Except.error e) := rfl

/-- `to_status` viewed through `List.any` over the signature list. -/
theorem to_status_eq_ite (s : String) :
    to_status s =
      (if (errors_to_rejoin.any fun e => substrOf s e) then neterr.NOTJOINED
       else neterr.FAULT) := by
  simp only [to_status, errors_to_rejoin, toStatusAux, List.any_cons, List.any_nil]
  by_cases h1 : substrOf s "0xfffffff6" <;>
    by_cases h2 : substrOf s "LDAP_INVALID_CREDENTIALS" <;>
      by_cases h3 : substrOf s "The name provided is not a properly formed account name" <;>
        by_cases h4 : substrOf s "The attempted logon is invalid." <;>
          simp [h1, h2, h3, h4]

/-! ## Claim theorems -/

/-- C5: a failed testjoin diagnostic classifies as `NOTJOINED` exactly when
it contains one of the fixed stale-membership signatures (in particular any
string containing `LDAP_INVALID_CREDENTIALS`), every unmatched string
classifies as `FAULT`, and a zero exit status of `net ads testjoin` yields
`JOINED`. -/
theorem c5_probe_classification (s : String) (env : StartEnv)
    (htj : env.tjTicket = none) (hrc : env.testjoinRc = 0) :
    (to_status s = neterr.NOTJOINED ↔
      (errors_to_rejoin.any fun e => substrOf s e) = true) ∧
    (to_status s = neterr.NOTJOINED ∨ to_status s = neterr.FAULT) ∧
    (substrOf s "LDAP_INVALID_CREDENTIALS" = true → to_status s = neterr.NOTJOINED) ∧
    (net_ads_testjoin env).2 = Except.ok neterr.JOINED := by
  refine ⟨?_, ?_, ?_, ?_⟩
  · rw [to_status_eq_ite]
    by_cases h : (errors_to_rejoin.any fun e => substrOf s e) <;> simp [h]
  · rw [to_status_eq_ite]
    by_cases h : (errors_to_rejoin.any fun e => substrOf s e) <;> simp [h]
  · intro h
    rw [to_status_eq_ite]
    have : (errors_to_rejoin.any fun e => substrOf s e) = true := by
      simp [errors_to_rejoin, h]
    simp [this]
  · simp [net_ads_testjoin, htj, hrc, req]

/-- C5 witness: a concrete signature-bearing string and a concrete
zero-exit testjoin. -/
theorem c5_witness :
    envW.tjTicket = none ∧ envW.testjoinRc = 0 ∧
    (to_status "ads_connect: LDAP_INVALID_CREDENTIALS" = neterr.NOTJOINED ∨
      to_status "ads_connect: LDAP_INVALID_CREDENTIALS" = neterr.FAULT) ∧
    (net_ads_testjoin envW).2 = Except.ok neterr.JOINED := by
  have h := c5_probe_classification "ads_connect: LDAP_INVALID_CREDENTIALS" envW rfl rfl
  exact ⟨rfl, rfl, h.2.1, h.2.2.2⟩

/-- C9: the cache-flush-and-retry helper runs the command once on success
(no flush, no retry) and on first failure flushes exactly once and retries
exactly once, returning the second result. -/
theorem c9_cache_flush_retry (runs : Nat → RunResult) :
    cache_flush_retry runs 0 =
      (if (runs 0).returncode = 0 then ([CEv.runCmd 0], runs 0)
       else ([CEv.runCmd 0, CEv.flush, CEv.runCmd 1], runs 1)) := by
  by_cases h : (runs 0).returncode = 0 <;>
    simp [cache_flush_retry, cache_flush_retry_noretry, h]

/-- C2 counterexample: with a kerberos principal configured (keytab mode),
the unknown-client-principal code is attributed to the kerberos-principal
field, not to the bind-name field as the claim states. -/
theorem c2_counterexample :
    (classify true "admin" "err" []
        KRB5ErrCode.KRB5KDC_ERR_C_PRINCIPAL_UNKNOWN).1 ≠
      "activedirectory.bindname" := by
  decide

/-- C2 amended: the classification is the pure function `classify`;
unknown-client-principal reattributes to the bind-name field only in
password mode and stays on the kerberos-principal field in keytab mode;
clock skew always reattributes to the domain-name field; every other code
attributes to the kerberos-principal field in keytab mode and the password
field in password mode. -/
theorem c2_amended (kp : Bool) (b estr : String) (ch : List String) :
    (classify false b estr ch KRB5ErrCode.KRB5KDC_ERR_C_PRINCIPAL_UNKNOWN).1 =
      "activedirectory.bindname" ∧
    (classify true b estr ch KRB5ErrCode.KRB5KDC_ERR_C_PRINCIPAL_UNKNOWN).1 =
      "activedirectory.kerberos_principal" ∧
    (classify kp b estr ch KRB5ErrCode.KRB5KRB_AP_ERR_SKEW).1 =
      "activedirectory.domainname" ∧
    (classify kp b estr ch KRB5ErrCode.KRB5_LIBOS_CANTREADPWD).1 =
      (if kp then "activedirectory.kerberos_principal" else "activedirectory.bindpw") ∧
    (classify kp b estr ch KRB5ErrCode.KRB5KDC_ERR_CLIENT_REVOKED).1 =
      (if kp then "activedirectory.kerberos_principal" else "activedirectory.bindpw") ∧
    (classify kp b estr ch KRB5ErrCode.KRB5_CC_NOTFOUND).1 =
      (if kp then "activedirectory.kerberos_principal" else "activedirectory.bindpw") ∧
    (classify kp b estr ch KRB5ErrCode.KRB5KDC_ERR_POLICY).1 =
      (if kp then "activedirectory.kerberos_principal" else "activedirectory.bindpw") ∧
    (classify kp b estr ch KRB5ErrCode.KRB5KDC_ERR_PREAUTH_FAILED).1 =
      (if kp then "activedirectory.kerberos_principal" else "activedirectory.bindpw") ∧
    (classify kp b estr ch KRB5ErrCode.otherCode).1 =
      (if kp then "activedirectory.kerberos_principal" else "activedirectory.bindpw") := by
  cases kp <;> simp [classify]

/-- C7: a proposed configuration carrying two independent field
violations — a forbidden realm change while the service stays enabled and
a missing credential — produces a single report containing both errors,
whatever the remaining environment facts are. -/
theorem c7_validation_batching (newC : Config) (bp : Option String)
    (old : Config) (env : VEnv)
    (hn : newC.enable = true) (ho : old.enable = true)
    (hr : newC.kerberos_realm ≠ old.kerberos_realm)
    (hb : optTruthy bp = false) (hk : newC.kerberos_principal = "") :
    ("activedirectory_update.kerberos_realm", realmAlterMsg) ∈
      common_validate newC bp old env ∧
    ("activedirectory_update.bindname", credsRequiredMsg) ∈
      common_validate newC bp old env := by
  unfold common_validate
  simp only [hn, ho, hb, hk, not_true, Bool.false_eq_true, not_false_iff,
    ite_false, ite_true, ne_eq, hr, not_false_eq_true, and_true, true_and,
    and_self, if_true, if_false, Bool.true_eq_false, false_and, and_false]
  constructor <;>
  · split_ifs <;>
    simp [List.mem_append]

/-- C7 witness: concrete two-violation update (realm changed while enabled,
no credentials supplied). -/
theorem c7_witness :
    cfgW.enable = true ∧ cfgW.kerberos_principal = "" ∧
    ({ cfgW with kerberos_realm := some 9 } : Config).kerberos_realm ≠
      cfgW.kerberos_realm ∧
    ("activedirectory_update.kerberos_realm", realmAlterMsg) ∈
      common_validate { cfgW with kerberos_realm := some 9 } none cfgW venvW ∧
    ("activedirectory_update.bindname", credsRequiredMsg) ∈
      common_validate { cfgW with kerberos_realm := some 9 } none cfgW venvW := by
  have h := c7_validation_batching { cfgW with kerberos_realm := some 9 } none cfgW venvW
    rfl rfl (by decide) rfl rfl
  exact ⟨rfl, rfl, by decide, h.1, h.2⟩

theorem traceNoBindpw_append (t1 t2 : List Ev) :
    traceNoBindpw (t1 ++ t2) = (traceNoBindpw t1 && traceNoBindpw t2) :=
  List.all_append

theorem clean_bind {α β : Type} {x : Res α} {f : α → Res β}
    (hx : traceNoBindpw x.1 = true) (hf : ∀ a, traceNoBindpw (f a).1 = true) :
    traceNoBindpw (Res.bind x f).1 = true := by
  rcases x with ⟨t, r⟩
  cases r with
  | error e => simpa [Res.bind] using hx
  | ok a =>
      simp only [Res.bind, traceNoBindpw_append, Bool.and_eq_true]
      exact ⟨hx, hf a⟩

theorem clean_req (o : Option Err) : traceNoBindpw (req o).1 = true := by
  cases o <;> rfl

theorem clean_pure {α : Type} (a : α) :
    traceNoBindpw (pure a : Res α).1 = true := rfl

theorem clean_fail {α : Type} (e : Err) :
    traceNoBindpw (fail e : Res α).1 = true := rfl

theorem clean_attempt {α : Type} (x : Res α)
    (h : traceNoBindpw x.1 = true) : traceNoBindpw (attempt x).1 = true := h

theorem ad_compress_no_bindpw (l : List (String × DVal)) :
    payloadNoBindpw (ad_compress l) = true := by
  simp only [payloadNoBindpw, ad_compress, List.all_eq_true]
  intro kv hkv
  simp only [List.mem_map] at hkv
  obtain ⟨kv0, hkv0, hmap⟩ := hkv
  simp only [List.mem_filter] at hkv0
  have h2 := hkv0.2
  simp only [decide_eq_true_eq, not_or] at h2
  have hfst : kv.1 = kv0.1 := by
    rw [← hmap]
    split
    · split <;> first | rfl | (split_ifs <;> rfl)
    · rfl
  simp only [decide_eq_true_eq]
  rw [hfst]
  exact h2.2.2.2

theorem clean_net_ads_leave (ti : Option Err) (rc : Nat) :
    traceNoBindpw (net_ads_leave ti rc).1 = true := by
  unfold net_ads_leave
  simp only [bind_eq]
  refine clean_bind (clean_req ti) fun _ => ?_
  refine clean_bind (by decide) fun _ => ?_
  split <;> exact clean_pure _

theorem clean_post_join_setup (env : StartEnv) :
    traceNoBindpw (post_join_setup env).1 = true := by
  unfold post_join_setup
  simp only [bind_eq]
  repeat'
    first
    | exact clean_pure _
    | exact clean_req _
    | exact clean_fail _
    | refine clean_bind ?_ fun _ => ?_
    | split
    | decide
    | simp [traceNoBindpw, payloadNoBindpw]

theorem clean_startPrep (ad : Config) (env : StartEnv) :
    traceNoBindpw (startPrep ad env).1 = true := by
  unfold startPrep
  simp only [bind_eq]
  repeat'
    first
    | exact clean_pure _
    | exact clean_req _
    | exact clean_fail _
    | refine clean_bind ?_ fun _ => ?_
    | split
    | decide
    | simp [traceNoBindpw, payloadNoBindpw]

theorem clean_alreadyJoinedSync (ad : Config) (env : StartEnv) :
    traceNoBindpw (alreadyJoinedSync ad env).1 = true := by
  unfold alreadyJoinedSync
  simp only [bind_eq]
  repeat'
    first
    | exact clean_pure _
    | exact clean_req _
    | exact clean_fail _
    | refine clean_bind ?_ fun _ => ?_
    | split
    | decide
    | simp [traceNoBindpw, payloadNoBindpw]

theorem clean_notJoinedSequence (ad : Config) (env : StartEnv) :
    traceNoBindpw (notJoinedSequence ad env).1 = true := by
  unfold notJoinedSequence net_ads_join
  simp only [bind_eq]
  refine clean_bind ?_ fun _ => ?_
  · repeat'
      first
      | exact clean_pure _
      | exact clean_req _
      | exact clean_fail _
      | refine clean_bind ?_ fun _ => ?_
      | split
      | decide
  · refine clean_bind (clean_attempt _ (clean_post_join_setup env)) fun r => ?_
    cases r with
    | error e =>
        simp only [bind_eq]
        exact clean_bind (clean_net_ads_leave _ _) fun _ => clean_fail _
    | ok _ =>
        simp only [bind_eq]
        repeat'
          first
          | exact clean_pure _
          | exact clean_req _
          | exact clean_fail _
          | refine clean_bind ?_ fun _ => ?_
          | split
          | decide
          | simp [traceNoBindpw, payloadNoBindpw]

theorem clean_adStart (ad : Config) (env : StartEnv) :
    traceNoBindpw (adStart ad env).1 = true := by
  unfold adStart net_ads_testjoin
  simp only [bind_eq]
  split
  · exact clean_pure _
  · refine clean_bind ?_ fun _ => ?_
    · split
      · exact clean_fail _
      · exact clean_pure _
    · refine clean_bind (clean_req _) fun _ => ?_
      refine clean_bind (by decide) fun _ => ?_
      refine clean_bind (clean_startPrep ad env) fun pr => ?_
      refine clean_bind ?_ fun ret => ?_
      · repeat'
          first
          | exact clean_pure _
          | exact clean_req _
          | refine clean_bind ?_ fun _ => ?_
          | split
          | decide
      · refine clean_bind ?_ fun ret2 => ?_
        · cases ret with
          | NOTJOINED =>
              simp only [bind_eq]
              exact clean_bind (clean_notJoinedSequence _ env) fun _ => clean_pure _
          | JOINED =>
              simp only [bind_eq]
              exact clean_bind (clean_alreadyJoinedSync _ env) fun _ => clean_pure _
          | FAULT => exact clean_pure _
        · repeat'
            first
            | exact clean_pure _
            | exact clean_req _
            | refine clean_bind ?_ fun _ => ?_
            | split
            | decide

theorem clean_ad_stop : traceNoBindpw ad_stop.1 = true := by decide

theorem clean_ad_do_update (old : Config) (d : Data) (env : UpdEnv) :
    traceNoBindpw (ad_do_update old d env).1 = true := by
  unfold ad_do_update
  simp only [bind_eq]
  refine clean_bind ?_ fun _ => ?_
  · repeat'
      first
      | exact clean_pure _
      | exact clean_fail _
      | split
      | decide
  · refine clean_bind ?_ fun _ => ?_
    · split <;> first | exact clean_fail _ | exact clean_pure _
    · refine clean_bind ?_ fun _ => ?_
      · repeat'
          first
          | exact clean_pure _
          | exact clean_fail _
          | refine clean_bind ?_ fun _ => ?_
          | split
          | decide
      · refine clean_bind ?_ fun _ => ?_
        · repeat'
            first
            | exact clean_pure _
            | exact clean_fail _
            | refine clean_bind ?_ fun _ => ?_
            | split
            | decide
        · refine clean_bind ?_ fun _ => ?_
          · simp only [emit_def, traceNoBindpw, List.all_cons, List.all_nil,
              Bool.and_true]
            exact ad_compress_no_bindpw _
          refine clean_bind (by decide) fun _ => ?_
          refine clean_bind ?_ fun _ => clean_pure _
          split
          · refine clean_bind ?_ fun _ => ?_
            · split <;> first | decide | exact clean_pure _
            · refine clean_bind ?_ fun _ => ?_
              · repeat'
                  first
                  | exact clean_pure _
                  | exact clean_req _
                  | refine clean_bind ?_ fun _ => ?_
                  | split
                  | decide
              · refine clean_bind (clean_attempt _ (clean_adStart _ _)) fun r => ?_
                cases r with
                | error e =>
                    simp only [bind_eq]
                    refine clean_bind (by decide) fun _ => ?_
                    exact clean_bind (by decide) fun _ => clean_fail _
                | ok _ => exact clean_pure _
          · split
            · exact clean_ad_stop
            · split
              · decide
              · exact clean_pure _

theorem clean_ad_leave (ad : Config) (env : LEnv) :
    traceNoBindpw (ad_leave ad env).1 = true := by
  unfold ad_leave
  simp only [bind_eq]
  refine clean_bind ?_ fun _ => ?_
  · split
    · exact clean_fail _
    · exact clean_pure _
  · refine clean_bind (by decide) fun _ => ?_
    refine clean_bind (by decide) fun _ => ?_
    refine clean_bind (clean_req _) fun _ => ?_
    refine clean_bind (by decide) fun _ => ?_
    refine clean_bind (clean_req _) fun _ => ?_
    refine clean_bind (clean_net_ads_leave _ _) fun left => ?_
    repeat'
      first
      | exact clean_pure _
      | exact clean_req _
      | refine clean_bind ?_ fun _ => ?_
      | split
      | decide

/-- C8: no datastore write performed by a configuration update or by a
leave operation ever contains a `bindpw` entry — `ad_compress` strips the
password (with the netbios keys) before the persistence write, and every
other write site uses a fixed bindpw-free payload. -/
theorem c8_no_bindpw_persisted (old : Config) (d : Data) (env : UpdEnv)
    (ad : Config) (lenv : LEnv) :
    traceNoBindpw (ad_do_update old d env).1 = true ∧
    traceNoBindpw (ad_leave ad lenv).1 = true :=
  ⟨clean_ad_do_update old d env, clean_ad_leave ad lenv⟩

/-- C6: when the `net ads leave` command exits non-zero the leave job still
removes the DNS records, deletes the stored keytab and realm rows, clears
the realm-identifying fields, reaches DISABLED and completes without error,
but performs no secrets backup; the backup happens exactly when the leave
command succeeded. -/
theorem c6_leave_tolerance (ad : Config) (env : LEnv)
    (hd : ad.domainname ≠ "")
    (hgc : env.getCred = none) (hki : env.kinit = none)
    (hlt : env.leaveTicket = none)
    (hud : env.unregisterDns = none) (hks : env.kerberosStop = none) :
    ((Ev.callSvc "directoryservices.secrets.backup") ∈ (ad_leave ad env).1 ↔
      env.leaveRc = 0) ∧
    (env.leaveRc ≠ 0 →
      (Ev.callSvc "activedirectory.unregister_dns") ∈ (ad_leave ad env).1 ∧
      (env.keytabPresent = true →
        Ev.dsDelete "directoryservice.kerberoskeytab" ∈ (ad_leave ad env).1) ∧
      (ad.kerberos_realm.isSome →
        Ev.dsDelete "directoryservice.kerberosrealm" ∈ (ad_leave ad env).1) ∧
      Ev.dsWrite [("enable", DVal.b false), ("site", DVal.optS none),
        ("bindname", DVal.s ""), ("kerberos_realm", DVal.optN none),
        ("kerberos_principal", DVal.s ""), ("domainname", DVal.s "")] ∈
          (ad_leave ad env).1 ∧
      Ev.setState DSStatus.DISABLED ∈ (ad_leave ad env).1 ∧
      (ad_leave ad env).2 = Except.ok ()) := by
  unfold ad_leave net_ads_leave
  simp only [bind_eq, hgc, hki, hlt, hud, hks, req_none, emit_def, pure_res,
    bind_ok, hd, if_neg, ite_false, ite_true]
  by_cases hrc : env.leaveRc = 0 <;>
    cases hkt : env.keytabPresent <;>
      cases hkr : ad.kerberos_realm <;>
        simp_all [List.mem_append]

/-- C6 witness: a concrete failed leave command with everything else
healthy. -/
theorem c6_witness :
    cfgW.domainname ≠ "" ∧ lenvW.getCred = none ∧ lenvW.kinit = none ∧
    lenvW.leaveTicket = none ∧ lenvW.unregisterDns = none ∧
    lenvW.kerberosStop = none ∧
    ((Ev.callSvc "directoryservices.secrets.backup") ∈ (ad_leave cfgW lenvW).1 ↔
      lenvW.leaveRc = 0) ∧
    (lenvW.leaveRc ≠ 0 →
      (Ev.callSvc "activedirectory.unregister_dns") ∈ (ad_leave cfgW lenvW).1 ∧
      (lenvW.keytabPresent = true →
        Ev.dsDelete "directoryservice.kerberoskeytab" ∈ (ad_leave cfgW lenvW).1) ∧
      (cfgW.kerberos_realm.isSome →
        Ev.dsDelete "directoryservice.kerberosrealm" ∈ (ad_leave cfgW lenvW).1) ∧
      Ev.dsWrite [("enable", DVal.b false), ("site", DVal.optS none),
        ("bindname", DVal.s ""), ("kerberos_realm", DVal.optN none),
        ("kerberos_principal", DVal.s ""), ("domainname", DVal.s "")] ∈
          (ad_leave cfgW lenvW).1 ∧
      Ev.setState DSStatus.DISABLED ∈ (ad_leave cfgW lenvW).1 ∧
      (ad_leave cfgW lenvW).2 = Except.ok ()) := by
  have h := c6_leave_tolerance cfgW lenvW (by decide) rfl rfl rfl rfl rfl
  exact ⟨by decide, rfl, rfl, rfl, rfl, rfl, h.1, h.2⟩

theorem all_bind {α β : Type} (p : Ev → Bool) {x : Res α} {f : α → Res β}
    (hx : x.1.all p = true) (hf : ∀ a, (f a).1.all p = true) :
    (Res.bind x f).1.all p = true := by
  rcases x with ⟨t, r⟩
  cases r with
  | error e => simpa [Res.bind] using hx
  | ok a =>
      simp only [Res.bind, List.all_append, Bool.and_eq_true]
      exact ⟨hx, hf a⟩

theorem all_req (p : Ev → Bool) (o : Option Err) : (req o).1.all p = true := by
  cases o <;> rfl

theorem all_pure {α : Type} (p : Ev → Bool) (a : α) :
    (pure a : Res α).1.all p = true := rfl

theorem all_fail {α : Type} (p : Ev → Bool) (e : Err) :
    (fail e : Res α).1.all p = true := rfl

theorem not_mem_of_all {p : Ev → Bool} {t : List Ev} (h : t.all p = true)
    {e : Ev} (he : p e = false) : e ∉ t := by
  intro hmem
  rw [List.all_eq_true] at h
  have := h e hmem
  rw [he] at this
  exact Bool.false_ne_true this

/-- The preparation phase of `__start` emits only `prepSafe` events. -/
theorem startPrep_safe (ad : Config) (env : StartEnv) :
    (startPrep ad env).1.all prepSafe = true := by
  unfold startPrep
  simp only [bind_eq]
  repeat'
    first
    | exact all_pure _ _
    | exact all_req _ _
    | exact all_fail _ _
    | refine all_bind _ ?_ fun _ => ?_
    | split
    | decide
    | simp [prepSafe]

/-- When the per-site outcomes of the preparation phase are benign the
phase succeeds and preserves the identity fields of the configuration. -/
theorem startPrep_ok (ad : Config) (env : StartEnv)
    (h1 : env.kerberosStart = none) (h2 : env.setKrbServers = none) :
    match (startPrep ad env).2 with
    | Except.ok pr =>
        pr.1.netbiosname = ad.netbiosname ∧
        pr.1.domainname = ad.domainname ∧
        pr.1.kerberos_principal = ad.kerberos_principal
    | Except.error _ => False := by
  unfold startPrep
  simp only [bind_eq, h1, h2, req_none]
  cases hr : ad.kerberos_realm <;> cases hb : env.realmByName <;>
  cases ht : env.hasTicket <;> cases hs : ad.site <;>
  by_cases hcs : env.dcInfo.clientSiteName = "Default-First-Site-Name" <;>
  by_cases hwg : env.workgroup = env.dcInfo.preWin2kDomain <;>
  simp [hr, hb, ht, hs, hcs, hwg, emit, req, Res.bind, pure]

/-- C4: when testjoin reports the host is already joined, `__start` never
runs the `net ads join` (or leave) command; it only re-validates the stored
principal — when the principal is absent it commits the machine-account
principal, first recovering the keytab from persisted secrets when the
`AD_MACHINE_ACCOUNT` keytab row is missing, and when the principal is
present it performs neither commit nor recovery. -/
theorem c4_idempotent_rejoin (ad : Config) (env : StartEnv)
    (hha : ¬(env.ha_mode = "UNIFIED" ∧ env.failover_status ≠ "MASTER"))
    (hst : env.current_state ≠ DSStatus.JOINING ∧ env.current_state ≠ DSStatus.LEAVING)
    (hdc : env.lookupDc = none)
    (hks : env.kerberosStart = none) (hsk : env.setKrbServers = none)
    (htj : env.tjTicket = none) (hrc : env.testjoinRc = 0)
    (hcm : env.checkMachineKeytab = none) :
    Ev.runNet Cmd.join ∉ (adStart ad env).1 ∧
    Ev.runNet Cmd.leave ∉ (adStart ad env).1 ∧
    (ad.kerberos_principal = "" →
      Ev.dsWrite [("kerberos_principal", DVal.s (machineAcct ad))] ∈ (adStart ad env).1 ∧
      (env.machineKeytabPresent = false →
        Ev.callSvc "activedirectory.check_machine_account_keytab" ∈ (adStart ad env).1)) ∧
    (ad.kerberos_principal ≠ "" →
      Ev.dsWrite [("kerberos_principal", DVal.s (machineAcct ad))] ∉ (adStart ad env).1 ∧
      Ev.callSvc "activedirectory.check_machine_account_keytab" ∉ (adStart ad env).1) := by
  have hsafe := startPrep_safe ad env
  have hok := startPrep_ok ad env hks hsk
  rcases hsp : startPrep ad env with ⟨t3, r3⟩
  rw [hsp] at hsafe hok
  cases r3 with
  | error e => exact hok.elim
  | ok pr =>
      obtain ⟨hnb, hdn, hkp⟩ := hok
      have hjoin3 : Ev.runNet Cmd.join ∉ t3 := not_mem_of_all hsafe (by decide)
      have hleave3 : Ev.runNet Cmd.leave ∉ t3 := not_mem_of_all hsafe (by decide)
      have hcommit3 : Ev.dsWrite [("kerberos_principal", DVal.s (machineAcct ad))] ∉ t3 := by
        refine not_mem_of_all hsafe ?_
        simp [prepSafe]
      have hck3 : Ev.callSvc "activedirectory.check_machine_account_keytab" ∉ t3 :=
        not_mem_of_all hsafe (by decide)
      have hmac : machineAcct pr.1 = machineAcct ad := by
        simp [machineAcct, hnb, hdn]
      unfold adStart net_ads_testjoin alreadyJoinedSync
      rw [if_neg hha]
      simp only [bind_eq, hdc, htj, hrc, req_none, hsp, bind_ok, bind_err,
        pure_res, emit_def, hkp, hmac, hcm]
      rw [if_neg (fun h => h.elim hst.1 hst.2)]
      by_cases hp : ad.kerberos_principal = "" <;>
        cases hmk : env.machineKeytabPresent <;>
          cases hcr : env.cacheRefresh <;>
            cases hrd : env.restartDependent <;>
              simp_all [Res.bind, List.mem_append]

/-- C4 witness: concrete already-joined start with a missing principal. -/
theorem c4_witness :
    (¬(envW.ha_mode = "UNIFIED" ∧ envW.failover_status ≠ "MASTER")) ∧
    (envW.current_state ≠ DSStatus.JOINING ∧
      envW.current_state ≠ DSStatus.LEAVING) ∧
    envW.lookupDc = none ∧ envW.kerberosStart = none ∧
    envW.setKrbServers = none ∧ envW.tjTicket = none ∧
    envW.testjoinRc = 0 ∧ envW.checkMachineKeytab = none ∧
    (Ev.runNet Cmd.join ∉ (adStart cfgW envW).1 ∧
     Ev.runNet Cmd.leave ∉ (adStart cfgW envW).1 ∧
     (cfgW.kerberos_principal = "" →
       Ev.dsWrite [("kerberos_principal", DVal.s (machineAcct cfgW))] ∈
         (adStart cfgW envW).1 ∧
       (envW.machineKeytabPresent = false →
         Ev.callSvc "activedirectory.check_machine_account_keytab" ∈
           (adStart cfgW envW).1)) ∧
     (cfgW.kerberos_principal ≠ "" →
       Ev.dsWrite [("kerberos_principal", DVal.s (machineAcct cfgW))] ∉
         (adStart cfgW envW).1 ∧
       Ev.callSvc "activedirectory.check_machine_account_keytab" ∉
         (adStart cfgW envW).1)) := by
  have h := c4_idempotent_rejoin cfgW envW (by decide) (by decide)
    rfl rfl rfl rfl rfl rfl
  exact ⟨by decide, by decide, rfl, rfl, rfl, rfl, rfl, rfl, h⟩

/-- Compensating-leave trace facts and the C1 theorems.  The preparation
and post-join phases never run a `net` command. -/
theorem post_join_setup_no_run (env : StartEnv) (c : Cmd) :
    Ev.runNet c ∉ (post_join_setup env).1 := by
  unfold post_join_setup
  cases env.registerDns <;> cases env.spnWait <;> cases env.storeKeytab <;>
    simp [Res.bind, req, emit]


/-- C1 amended: for a join that performed the join call, any exception in
post-join setup triggers the compensating `_net_ads_leave`; provided the
compensation path itself does not raise (its `kerberos.check_ticket`
succeeds), the leave command runs exactly once — whatever its exit code —
and the original post-join error is the one that propagates. -/
theorem c1_amended (ad : Config) (env : StartEnv)
    (hha : ¬(env.ha_mode = "UNIFIED" ∧ env.failover_status ≠ "MASTER"))
    (hst : env.current_state ≠ DSStatus.JOINING ∧ env.current_state ≠ DSStatus.LEAVING)
    (hdc : env.lookupDc = none)
    (hks : env.kerberosStart = none) (hsk : env.setKrbServers = none)
    (htj : env.tjTicket = none) (hrc : env.testjoinRc ≠ 0)
    (hcls : to_status env.testjoinErr = neterr.NOTJOINED)
    (hjt : env.joinTicket = none) (hjrc : env.joinRc = 0)
    (e : Err) (hpj : (post_join_setup env).2 = Except.error e)
    (hlt : env.leaveTicket = none) :
    (adStart ad env).2 = Except.error e ∧
    (adStart ad env).1.count (Ev.runNet Cmd.leave) = 1 := by
  have hsafe := startPrep_safe ad env
  have hok := startPrep_ok ad env hks hsk
  rcases hsp : startPrep ad env with ⟨t3, r3⟩
  rw [hsp] at hsafe hok
  cases r3 with
  | error er => exact hok.elim
  | ok pr =>
      have hleave3 : Ev.runNet Cmd.leave ∉ t3 := not_mem_of_all hsafe (by decide)
      have hcount3 : t3.count (Ev.runNet Cmd.leave) = 0 :=
        List.count_eq_zero.mpr hleave3
      rcases hpj0 : post_join_setup env with ⟨tp, rp⟩
      rw [hpj0] at hpj
      simp only at hpj
      subst hpj
      have hcountp : tp.count (Ev.runNet Cmd.leave) = 0 :=
        List.count_eq_zero.mpr (by
          have := post_join_setup_no_run env Cmd.leave
          rw [hpj0] at this
          exact this)
      unfold adStart net_ads_testjoin notJoinedSequence net_ads_join net_ads_leave
      rw [if_neg hha]
      simp only [bind_eq, hdc, htj, req_none, hsp, bind_ok, bind_err,
        pure_res, emit_def, hjt, hjrc, hlt, attempt, hpj0]
      rw [if_neg (fun h => h.elim hst.1 hst.2)]
      simp only [if_pos hrc, hcls, Res.bind]
      constructor
      · by_cases hlr : env.leaveRc = 0 <;> simp [Res.bind, hlr, fail]
      · by_cases hlr : env.leaveRc = 0 <;>
          simp [Res.bind, hlr, fail, List.count_append, hcount3, hcountp,
            List.count_cons] <;> decide


/-- C1 counterexample: with DNS registration failing inside post-join setup
and the ticket check at the head of the compensating `_net_ads_leave`
raising, the error that propagates is the compensation-path error, not the
original post-join failure, and the leave command runs zero times — the
claim fails as stated. -/
theorem c1_counterexample :
    envC1.registerDns = some (Err.exc "dns_failure") ∧
    (adStart cfgW envC1).2 = Except.error (Err.exc "ticket_gone") ∧
    Err.exc "ticket_gone" ≠ Err.exc "dns_failure" ∧
    (adStart cfgW envC1).1.count (Ev.runNet Cmd.leave) = 0 :=
  ⟨rfl, rfl, by decide, by decide⟩


/-- C1 witness: concrete post-join DNS failure with a healthy compensation
path. -/
theorem c1_witness :
    (¬(envC1ok.ha_mode = "UNIFIED" ∧ envC1ok.failover_status ≠ "MASTER")) ∧
    (envC1ok.current_state ≠ DSStatus.JOINING ∧
      envC1ok.current_state ≠ DSStatus.LEAVING) ∧
    envC1ok.lookupDc = none ∧ envC1ok.kerberosStart = none ∧
    envC1ok.setKrbServers = none ∧ envC1ok.tjTicket = none ∧
    envC1ok.testjoinRc ≠ 0 ∧
    to_status envC1ok.testjoinErr = neterr.NOTJOINED ∧
    envC1ok.joinTicket = none ∧ envC1ok.joinRc = 0 ∧
    (post_join_setup envC1ok).2 = Except.error (Err.exc "dns_failure") ∧
    envC1ok.leaveTicket = none ∧
    ((adStart cfgW envC1ok).2 = Except.error (Err.exc "dns_failure") ∧
     (adStart cfgW envC1ok).1.count (Ev.runNet Cmd.leave) = 1) := by
  have h := c1_amended cfgW envC1ok (by decide) (by decide) rfl rfl rfl rfl
    (by decide) (by decide) rfl rfl (Err.exc "dns_failure") rfl rfl
  exact ⟨by decide, by decide, rfl, rfl, rfl, rfl, by decide, by decide,
    rfl, rfl, rfl, rfl, h⟩


/-- A trace of `prepSafe` events records no state transition. -/
theorem setStates_nil_of_safe {t : List Ev} (h : t.all prepSafe = true) :
    setStates t = [] := by
  rw [setStates, List.filterMap_eq_nil_iff]
  intro e he
  rw [List.all_eq_true] at h
  have hp := h e he
  cases e <;> simp_all [prepSafe]


/-- C3 counterexample: a first-time enable in which the `net ads join`
command fails — a join-execution failure after the transition to JOINING —
ends with the state set to DISABLED (not FAULTED) and with the persisted
enable flag rolled back to disabled, refuting the claim. -/
theorem c3_counterexample :
    Ev.setState DSStatus.JOINING ∈ (ad_do_update oldW dW uenvJF).1 ∧
    (ad_do_update oldW dW uenvJF).2 =
      Except.error (Err.callErr " Invalid configuration (wrong realm)." 22) ∧
    Ev.dsWrite [("enable", DVal.b false)] ∈ (ad_do_update oldW dW uenvJF).1 ∧
    (setStates (ad_do_update oldW dW uenvJF).1).getLast? =
      some DSStatus.DISABLED :=
  ⟨by decide, rfl, by decide, by decide⟩


theorem getLast?_cons_concat (a b : DSStatus) (l : List DSStatus) :
    (a :: (l ++ [b])).getLast? = some b := by
  rw [← List.cons_append, List.getLast?_concat]


/-- The persistence write of the compressed record is never the
`enable=False` rollback write (its first entry is the id column). -/
theorem enable_false_write_ne (c : Config) (bp nb : Option String) :
    Ev.dsWrite [("enable", DVal.b false)] ≠
      Ev.dsWrite (ad_compress (c.toDict bp nb)) := by
  obtain ⟨tl, htl⟩ : ∃ tl, ad_compress (c.toDict bp nb) =
      ("id", DVal.n c.id) :: tl := ⟨_, rfl⟩
  rw [htl]
  simp


/-- C3 amended: a join-execution failure that raises an exception out of
`__start` is caught by `do_update`, which sets the state to DISABLED and
rolls the persisted enable flag back to false before re-raising the
original error; only a join that completes with a non-JOINED final
membership classification (testjoin FAULT) leaves the appliance FAULTED
with the optimistically persisted enable flag retained. -/
theorem c3_amended (old : Config) (d : Data) (env : UpdEnv)
    (hold : old.enable = false)
    (hnew : (doUpdateNew old d).enable = true)
    (hnb : (doUpdateNew old d).netbiosname = old.netbiosname)
    (hna : (doUpdateNew old d).netbiosalias = old.netbiosalias)
    (hverrs : common_validate (doUpdateNew old d) d.bindpw old env.venv = [])
    (htd : env.mayEnableTrusted = true)
    (hfl : env.failoverLicensed = false)
    (hdi : env.domInfo = none)
    (hoff : env.serverTimeOffset.natAbs ≤ 180)
    (hns : env.nameservers = none)
    (hcred : env.cred = CredOutcome.ok)
    (hk0 : env.kerberosStart0 = none) :
    (∀ e, (adStart (doUpdateNew old d) env.start).2 = Except.error e →
      (ad_do_update old d env).2 = Except.error e ∧
      Ev.dsWrite [("enable", DVal.b false)] ∈ (ad_do_update old d env).1 ∧
      (setStates (ad_do_update old d env).1).getLast? = some DSStatus.DISABLED) ∧
    ((¬(env.start.ha_mode = "UNIFIED" ∧ env.start.failover_status ≠ "MASTER")) →
      env.start.current_state ≠ DSStatus.JOINING →
      env.start.current_state ≠ DSStatus.LEAVING →
      env.start.lookupDc = none →
      env.start.kerberosStart = none → env.start.setKrbServers = none →
      env.start.tjTicket = none → env.start.testjoinRc ≠ 0 →
      to_status env.start.testjoinErr = neterr.FAULT →
      ((ad_do_update old d env).2 = Except.ok (doUpdateNew old d) ∧
       Ev.dsWrite [("enable", DVal.b false)] ∉ (ad_do_update old d env).1 ∧
       (setStates (ad_do_update old d env).1).getLast? =
         some DSStatus.FAULTED)) := by
  have hoff2 : ¬(180 < env.serverTimeOffset.natAbs) := by omega
  constructor
  · intro e hra
    rcases hstt : adStart (doUpdateNew old d) env.start with ⟨ts, rs⟩
    rw [hstt] at hra
    simp only at hra
    subst hra
    unfold ad_do_update
    simp only [bind_eq, hverrs, hdi, hns, hcred, hk0, htd, hfl, hold, hnew,
      hstt, attempt, hnb, hna, req_none, emit_def, pure_res, bind_ok, bind_err,
      Res.bind, fail]
    by_cases hng : env.ngcDomain = "" ∨ env.ngcDomain = "local" <;>
      cases hht : env.hasTicket0 <;>
        simp [hng, hht, hoff2, setStates, List.filterMap_append,
          List.getLast?_concat, List.mem_append]
  · intro hha hj1 hj2 hdc hks hsk htjt hrct hcls
    have hsafe := startPrep_safe (doUpdateNew old d) env.start
    have hok := startPrep_ok (doUpdateNew old d) env.start hks hsk
    rcases hsp : startPrep (doUpdateNew old d) env.start with ⟨t3, r3⟩
    rw [hsp] at hsafe hok
    cases r3 with
    | error er => exact hok.elim
    | ok pr =>
        have hsn : setStates t3 = [] := setStates_nil_of_safe hsafe
        have hnw : Ev.dsWrite [("enable", DVal.b false)] ∉ t3 :=
          not_mem_of_all hsafe (by decide)
        have hcw := enable_false_write_ne (doUpdateNew old d) d.bindpw
          d.netbiosname_b
        unfold ad_do_update adStart net_ads_testjoin
        simp only [bind_eq, hverrs, hdi, hns, hcred, hk0, htd, hfl, hold,
          hnew, hnb, hna, hdc, htjt, hsp, hcls, attempt, req_none, emit_def,
          pure_res, bind_ok, bind_err, Res.bind, fail, if_pos hrct,
          hha, hj1, hj2]
        rw [setStates] at hsn
        by_cases hng : env.ngcDomain = "" ∨ env.ngcDomain = "local" <;>
          cases hht : env.hasTicket0 <;>
            simp [hng, hht, hoff2, hsn, hnw, hcw, setStates,
              List.filterMap_append, List.getLast?_concat,
              getLast?_cons_concat, List.mem_append]


/-- C3 witness: the concrete join-command failure exercises the rollback
branch of the amended claim. -/
theorem c3_witness :
    oldW.enable = false ∧ (doUpdateNew oldW dW).enable = true ∧
    (doUpdateNew oldW dW).netbiosname = oldW.netbiosname ∧
    (doUpdateNew oldW dW).netbiosalias = oldW.netbiosalias ∧
    common_validate (doUpdateNew oldW dW) dW.bindpw oldW uenvJF.venv = [] ∧
    uenvJF.mayEnableTrusted = true ∧ uenvJF.failoverLicensed = false ∧
    uenvJF.domInfo = none ∧ uenvJF.serverTimeOffset.natAbs ≤ 180 ∧
    uenvJF.nameservers = none ∧ uenvJF.cred = CredOutcome.ok ∧
    uenvJF.kerberosStart0 = none ∧
    ((∀ e, (adStart (doUpdateNew oldW dW) uenvJF.start).2 = Except.error e →
      (ad_do_update oldW dW uenvJF).2 = Except.error e ∧
      Ev.dsWrite [("enable", DVal.b false)] ∈ (ad_do_update oldW dW uenvJF).1 ∧
      (setStates (ad_do_update oldW dW uenvJF).1).getLast? =
        some DSStatus.DISABLED) ∧
    ((¬(uenvJF.start.ha_mode = "UNIFIED" ∧
        uenvJF.start.failover_status ≠ "MASTER")) →
      uenvJF.start.current_state ≠ DSStatus.JOINING →
      uenvJF.start.current_state ≠ DSStatus.LEAVING →
      uenvJF.start.lookupDc = none →
      uenvJF.start.kerberosStart = none → uenvJF.start.setKrbServers = none →
      uenvJF.start.tjTicket = none → uenvJF.start.testjoinRc ≠ 0 →
      to_status uenvJF.start.testjoinErr = neterr.FAULT →
      ((ad_do_update oldW dW uenvJF).2 = Except.ok (doUpdateNew oldW dW) ∧
       Ev.dsWrite [("enable", DVal.b false)] ∉ (ad_do_update oldW dW uenvJF).1 ∧
       (setStates (ad_do_update oldW dW uenvJF).1).getLast? =
         some DSStatus.FAULTED))) := by
  have h := c3_amended oldW dW uenvJF rfl (by decide) (by decide) (by decide)
    (by decide) rfl rfl rfl (by decide) rfl rfl rfl
  exact ⟨rfl, by decide, by decide, by decide, by decide, rfl, rfl, rfl,
    by decide, rfl, rfl, rfl, h⟩

/-- C10: while the service stays enabled across an update, a change to any
field outside the permitted set (not only the kerberos realm) makes
`do_update` raise a field-scoped validation error before emitting a single
side effect — the trace is empty, so no persisted state is mutated. -/
theorem c10_forbidden_change_rejected (old : Config) (d : Data) (env : UpdEnv)
    (hold : old.enable = true)
    (hnew : (doUpdateNew old d).enable = true)
    (k : String) (hk : k ∈ keyOrder) (hkp : k ∉ permitted_keys)
    (hchg : (doUpdateNew old d).getField k ≠ old.getField k) :
    (ad_do_update old d env).1 = [] ∧
    ∃ e, (ad_do_update old d env).2 = Except.error e ∧ isValidation e = true := by
  have hf : (forbiddenChanged (doUpdateNew old d) old).isSome := by
    rw [forbiddenChanged, List.find?_isSome]
    exact ⟨k, hk, by simp [hkp, hchg]⟩
  rcases hfc : forbiddenChanged (doUpdateNew old d) old with _ | k2
  · rw [hfc] at hf
    simp at hf
  · unfold ad_do_update
    simp only [bind_eq]
    by_cases h1 : ((doUpdateNew old d).netbiosname ≠ old.netbiosname ∨
        (doUpdateNew old d).netbiosalias ≠ old.netbiosalias)
    · simp [h1, hold, Res.bind, fail, isValidation]
    · simp only [h1, ite_false, if_neg, not_false_eq_true, pure_res, bind_ok,
        List.nil_append]
      by_cases h2 : common_validate (doUpdateNew old d) d.bindpw old env.venv = []
      · simp only [h2, ne_eq, not_true_eq_false, ite_false, if_neg, pure_res,
          bind_ok, List.nil_append, reduceIte]
        by_cases h3 : ((doUpdateNew old d).allow_trusted_doms = true ∧
            env.mayEnableTrusted = false)
        · simp [hnew, h3, Res.bind, fail, isValidation]
        · by_cases h4 : env.failoverLicensed = true
          · by_cases h5 : env.sysdatasetOnBoot = true
            · simp [hnew, h3, h4, h5, Res.bind, fail, isValidation]
            · simp [hnew, hold, h3, h4, h5, hfc, Res.bind, fail, isValidation]
          · simp [hnew, hold, h3, h4, hfc, Res.bind, fail, isValidation]
      · simp [h2, Res.bind, fail, isValidation]

/-- C10 witness: changing the bind name while enabled is rejected with no
side effects. -/
theorem c10_witness :
    cfgW.enable = true ∧ (doUpdateNew cfgW dChg).enable = true ∧
    "bindname" ∈ keyOrder ∧ "bindname" ∉ permitted_keys ∧
    (doUpdateNew cfgW dChg).getField "bindname" ≠ cfgW.getField "bindname" ∧
    ((ad_do_update cfgW dChg uenvW).1 = [] ∧
     ∃ e, (ad_do_update cfgW dChg uenvW).2 = Except.error e ∧
       isValidation e = true) := by
  have h := c10_forbidden_change_rejected cfgW dChg uenvW rfl (by decide)
    "bindname" (by decide) (by decide) (by decide)
  exact ⟨rfl, by decide, by decide, by decide, by decide, h⟩

end AD
